import Mathlib

/-!
# Verification of the flight-booking agent evaluation/replay engine

Shallow embedding of the replay evaluator of
`sample_agent/flight_booking_gemini` (files `eval/evaluator.py`,
`agent/agent.py`, `agent/tools.py`, `eval/assertion_types.py`) together with
theorems settling the specification claims about it.

Conventions of the embedding:
* Python/JSON values appearing in traces, tool arguments and tool results are
  modelled by the inductive type `JVal`; Python `None` and JSON `null` are both
  `JVal.null` (after `json` parsing they are the same Python object).
* A golden-trace step (a Python dict produced by Pydantic `model_dump`) is a
  record of optional fields; `Option.none` means the key is absent, and the
  Python expression `step.get(k)` is `pyGet`, which yields `JVal.null` for an
  absent key.
* `json.dumps(x, sort_keys=True)` string comparison of two argument mappings is
  modelled as equality of key-sorted canonical forms (`canon`); every `JVal` is
  JSON-serialisable, so the `except TypeError` skip branch of
  `_find_matching_tool_call_in_trace` is unreachable in the model.
* LLM calls are external inputs: each agent turn receives the parts of the two
  `generate_content` responses from an oracle, and each assertion receives the
  grading call's outcome from an oracle.
* Raising an exception is modelled by an explicit error value; the `while` loop
  of `evaluate_trace` is compiled to structural recursion on the fuel
  `max_turns - current_turn_index`, carried together with the turn counter.
-/

namespace FlightEval

set_option maxRecDepth 100000

mutual
/-- A JSON value as manipulated by the Python code.  `null` stands both for
JSON `null` and for Python `None` (after `json` parsing they coincide). -/
inductive JVal where
  | null : JVal
  | bool (b : Bool) : JVal
  | num (n : Int) : JVal
  | str (s : String) : JVal
  | arr (elems : JList) : JVal
  | obj (fields : JFields) : JVal
deriving DecidableEq, Repr

/-- A JSON array's list of elements. -/
inductive JList where
  | nil : JList
  | cons (head : JVal) (tail : JList) : JList
deriving DecidableEq, Repr

/-- A JSON object's ordered list of key/value fields (a Python dict preserves
insertion order; keys are unique). -/
inductive JFields where
  | nil : JFields
  | cons (key : String) (val : JVal) (tail : JFields) : JFields
deriving DecidableEq, Repr
end

/-- Lexicographic `≤` on character lists (Python's string order on the code
points, as used by `sort_keys`). -/
def charListLe : List Char → List Char → Bool
  | [], _ => true
  | _ :: _, [] => false
  | c :: cs, d :: ds => if c = d then charListLe cs ds else decide (c < d)

/-- Python string comparison `a <= b` (code-point lexicographic). -/
def keyLe (a b : String) : Bool := charListLe a.data b.data

/-- Insert a key/value pair into a key-sorted field list (insertion step of a
stable sort by key, as the key ordering of `json.dumps(..., sort_keys=True)`). -/
def insertByKey (k : String) (v : JVal) : JFields → JFields
  | .nil => .cons k v .nil
  | .cons k' v' rest =>
    if keyLe k k' then .cons k v (.cons k' v' rest) else .cons k' v' (insertByKey k v rest)

mutual
/-- Canonical form of a JSON value: object keys sorted recursively, array order
kept.  Two values have equal `json.dumps(·, sort_keys=True)` strings exactly
when their canonical forms are equal. -/
def canon : JVal → JVal
  | .null => .null
  | .bool b => .bool b
  | .num n => .num n
  | .str s => .str s
  | .arr es => .arr (canonList es)
  | .obj fs => .obj (sortFields (canonFields fs))

/-- `canon` mapped over array elements. -/
def canonList : JList → JList
  | .nil => .nil
  | .cons e es => .cons (canon e) (canonList es)

/-- `canon` mapped over object field values. -/
def canonFields : JFields → JFields
  | .nil => .nil
  | .cons k v fs => .cons k (canon v) (canonFields fs)

/-- Stable insertion sort of object fields by key. -/
def sortFields : JFields → JFields
  | .nil => .nil
  | .cons k v fs => insertByKey k v (sortFields fs)
end

/-- `pre` is a prefix of the second list (character-wise). -/
def listPrefixEq : List Char → List Char → Bool
  | [], _ => true
  | _ :: _, [] => false
  | c :: cs, d :: ds => (c = d) && listPrefixEq cs ds

/-- Auxiliary for `containsSubstr`: some suffix of the list starts with `n`. -/
def listContainsSub (n : List Char) : List Char → Bool
  | [] => n.isEmpty
  | c :: cs => listPrefixEq n (c :: cs) || listContainsSub n cs

/-- Python's `needle in hay` substring test. -/
def containsSubstr (needle hay : String) : Bool :=
  listContainsSub needle.toList hay.toList

/-- Python `str.isspace` for the ASCII whitespace actually occurring here. -/
def pyIsSpace (c : Char) : Bool := c = ' ' || c = '\t' || c = '\n' || c = '\r'

/-- Python `s.strip()`: remove leading and trailing whitespace. -/
def pyStrip (s : String) : String :=
  ⟨((s.data.dropWhile pyIsSpace).reverse.dropWhile pyIsSpace).reverse⟩

/-- Python `s.upper()` (ASCII letters; no non-ASCII letters occur in the
normalized tokens the code compares). -/
def pyUpper (s : String) : String := ⟨s.data.map Char.toUpper⟩

/-- Python `s.startswith(pre)`. -/
def pyStartsWith (s pre : String) : Bool := listPrefixEq pre.data s.data

/-- Python `"".join(parts)`. -/
def joinStrings (ts : List String) : String := ⟨(ts.map String.data).flatten⟩

/-- One step of a golden trace, i.e. one Python dict with the keys used by the
evaluator (`type`, `text`, `name`, `args`, `result`); `none` = key absent. -/
structure TraceStepDict where
  type? : Option JVal := none
  text? : Option JVal := none
  name? : Option JVal := none
  args? : Option JVal := none
  result? : Option JVal := none
deriving DecidableEq, Repr

/-- Python `step.get(key)`: the stored value, or `None` when the key is
absent. -/
def pyGet (o : Option JVal) : JVal := o.getD .null

/-- Python `step.get("args", {})`: the stored value (even when it is `None`),
or `{}` when the key is absent. -/
def argsGetD (step : TraceStepDict) : JVal := step.args?.getD (.obj .nil)

/-- `GeminiEvaluator._find_matching_tool_call_in_trace` (evaluator.py
148-185): scan the trace for the first `tool_interaction` step whose `name`
equals `tool_name` and whose `args` have the same key-sorted JSON dump as the
supplied arguments; return that step's stored `result` (`null` when that
result is absent or `None`), or `null` ("return None") when no step matches. -/
def findMatchingToolCallInTrace (toolName : String) (toolArgs : JVal) :
    List TraceStepDict → JVal
  | [] => .null
  | step :: rest =>
    if pyGet step.type? = .str "tool_interaction"
        ∧ pyGet step.name? = .str toolName
        ∧ canon toolArgs = canon (argsGetD step) then
      pyGet step.result?
    else
      findMatchingToolCallInTrace toolName toolArgs rest

/-- The distinguished replay-mismatch error `EvalToolMismatchError`
(evaluator.py 22), carrying the attempted tool name and arguments. -/
inductive ToolExecError where
  | evalToolMismatch (name : String) (args : JVal) : ToolExecError
deriving DecidableEq, Repr

/-- Outcome of one call of a tool executor: a returned value or a raised
exception. -/
inductive ExecOutcome where
  | ok (v : JVal) : ExecOutcome
  | err (e : ToolExecError) : ExecOutcome
deriving DecidableEq, Repr

/-- The module-level globals of `eval/evaluator.py` that
`tool_executor_replay` writes through its `global` statement.  Because the
`global` keyword binds names in the module that executes it, these are
evaluator-module variables, distinct from the homonymous variables of
`agent/tools.py`. -/
structure EvalGlobals where
  lastSearchCall : Option (JVal × JVal) := none
  lastBookingCall : Option (JVal × JVal) := none
deriving DecidableEq, Repr

/-- The module-level globals `_last_search_call` / `_last_booking_call` of
`agent/tools.py`, read by `get_last_search_call` / `get_last_booking_call`
and cleared by `reset_tool_states`.  Each stores the dict
`{"args": args, "result": result}` of the last real tool execution. -/
structure ToolsGlobals where
  lastSearchCall : Option (JVal × JVal) := none
  lastBookingCall : Option (JVal × JVal) := none
deriving DecidableEq, Repr

/-- `tool_executor_replay` (evaluator.py 217-240): look the call up in the
golden trace; when a non-`None` recorded result is found, store it in the
evaluator-module globals (the buggy `global` write) and return it, otherwise
raise `EvalToolMismatchError`.  The golden trace is only read. -/
def toolExecutorReplay (goldenTrace : List TraceStepDict) (g : EvalGlobals)
    (name : String) (args : JVal) : ExecOutcome × EvalGlobals :=
  let result := findMatchingToolCallInTrace name args goldenTrace
  if result ≠ .null then
    let g' : EvalGlobals :=
      if name = "search_flights" then { g with lastSearchCall := some (args, result) }
      else if name = "book_flight" then { g with lastBookingCall := some (args, result) }
      else g
    (.ok result, g')
  else
    (.err (.evalToolMismatch name args), g)

mutual
/-- Python `str(value)` for a parsed-JSON value (dict/list repr), used only to
interpolate the attempted arguments into error text. -/
def pyRepr : JVal → String
  | .null => "None"
  | .bool b => if b then "True" else "False"
  | .num n => toString n
  | .str s => "'" ++ s ++ "'"
  | .arr es => "[" ++ pyReprList es ++ "]"
  | .obj fs => "\x7b" ++ pyReprFields fs ++ "\x7d"

/-- Comma-separated reprs of array elements. -/
def pyReprList : JList → String
  | .nil => ""
  | .cons e .nil => pyRepr e
  | .cons e es => pyRepr e ++ ", " ++ pyReprList es

/-- Comma-separated reprs of object fields. -/
def pyReprFields : JFields → String
  | .nil => ""
  | .cons k v .nil => "'" ++ k ++ "': " ++ pyRepr v
  | .cons k v fs => "'" ++ k ++ "': " ++ pyRepr v ++ ", " ++ pyReprFields fs
end

/-- `str(e)` for the raised `EvalToolMismatchError` (message built at
evaluator.py 235-238). -/
def toolExecErrorText : ToolExecError → String
  | .evalToolMismatch name args =>
    "Agent tried to call tool '" ++ name ++ "' with args " ++ pyRepr args ++
      ", but no matching call was found in the golden trace."

/-- One part of a `generate_content` response candidate: either a text part or
a function-call request.  (Parts whose `text` is the empty string are falsy in
Python and are skipped by `_extract_text_response`.) -/
inductive RespPart where
  | text (s : String) : RespPart
  | functionCall (name : String) (args : JVal) : RespPart
deriving DecidableEq, Repr

/-- `FlightBookingAgent._extract_text_response` (agent.py 96-103): join the
truthy text parts; `None` when there is no truthy text part. -/
def extractTextResponse (parts : List RespPart) : Option String :=
  let ts := parts.filterMap fun p =>
    match p with
    | .text s => if s = "" then none else some s
    | .functionCall _ _ => none
  if ts.isEmpty then none else some (joinStrings ts)

/-- `FlightBookingAgent._find_function_call` (agent.py 105-112): the first
function-call part of the response, if any. -/
def findFunctionCall : List RespPart → Option (String × JVal)
  | [] => none
  | .functionCall n a :: _ => some (n, a)
  | .text _ :: rest => findFunctionCall rest

/-- One entry of the agent's history: a `genai` `Part` (agent.py keeps history
as `(role, part)` pairs). -/
inductive HistPart where
  | text (s : String) : HistPart
  | functionCall (name : String) (args : JVal) : HistPart
  | functionResponse (name : String) (result : JVal) : HistPart
deriving DecidableEq, Repr

/-- The agent's conversation history, a list of `(role, part)` pairs. -/
abbrev History := List (String × HistPart)

/-- The two LLM responses an `interact` call may consume: the parts of the
first `generate_content` response, and the parts of the follow-up response
requested after a tool round-trip (used only when the first response contains
a function call). -/
structure TurnOracle where
  parts1 : List RespPart := []
  parts2 : List RespPart := []

/-- Result of one `FlightBookingAgent.interact` call in replay mode: the
updated history, the tools-module and evaluator-module globals, the returned
reply text, and the log of tool-executor invocations made during the call
(each with its outcome). -/
structure InteractResult where
  history : History
  toolsG : ToolsGlobals
  evalG : EvalGlobals
  reply : String
  execLog : List ((String × JVal) × ExecOutcome)
deriving DecidableEq, Repr

/-- `FlightBookingAgent.interact` (agent.py 114-270) with the replay executor
`tool_executor_replay` installed (`set_tool_executor`, evaluator.py 240).

Faithful control flow: append the user turn; `reset_tool_states()` clears the
tools-module globals; if the first response contains a function call, append
the model part holding it, invoke the executor, and
* if the executor raises, the blanket `except Exception` (agent.py 256-266)
  catches the error — `EvalToolMismatchError` included, since it subclasses
  `Exception` — sets the reply to `"Sorry, an error occurred: " + str(e)` and
  appends it to history;
* otherwise append the function-response part, issue the second LLM call and
  use its text (or the no-further-text placeholder, not appended to history).
Without a function call, use the first response's text (or the no-response
placeholder, not appended to history).  LLM transport failures are not
modelled: the oracle always yields response parts, so the `except` branch is
reached exactly on a tool-executor error. -/
def interact (goldenTrace : List TraceStepDict) (oracle : TurnOracle)
    (hist : History) (evalG : EvalGlobals) (userInput : String) : InteractResult :=
  let hist := hist ++ [("user", .text userInput)]
  let toolsG : ToolsGlobals := {}  -- reset_tool_states() at agent.py 121
  match findFunctionCall oracle.parts1 with
  | some (toolName, toolArgs) =>
    let hist := hist ++ [("model", .functionCall toolName toolArgs)]
    match toolExecutorReplay goldenTrace evalG toolName toolArgs with
    | (.err e, evalG') =>
      let reply := "Sorry, an error occurred: " ++ toolExecErrorText e
      ⟨hist ++ [("model", .text reply)], toolsG, evalG', reply,
        [((toolName, toolArgs), .err e)]⟩
    | (.ok result, evalG') =>
      let hist := hist ++ [("user", .functionResponse toolName result)]
      match extractTextResponse oracle.parts2 with
      | some t =>
        ⟨hist ++ [("model", .text t)], toolsG, evalG', t,
          [((toolName, toolArgs), .ok result)]⟩
      | none =>
        ⟨hist, toolsG, evalG',
          "[Agent processed tool result, but provided no further text]",
          [((toolName, toolArgs), .ok result)]⟩
  | none =>
    match extractTextResponse oracle.parts1 with
    | some t => ⟨hist ++ [("model", .text t)], toolsG, evalG, t, []⟩
    | none => ⟨hist, toolsG, evalG, "[Agent provided no response]", []⟩

/-- `AssertionResult` (assertion_types.py 28-34). -/
structure AssertionResult where
  name : String
  passed : Bool
  details : String := ""
  isOutcomeCheck : Bool := false
deriving DecidableEq, Repr

/-- `LLMCheckAssertion` after `__init__` (assertion_types.py 45-59): the
stored `expected_response` is already uppercased. -/
structure LLMCheckAssertion where
  name : String
  specificPromptTemplate : String
  expectedResponse : String
  isOutcomeCheck : Bool
deriving DecidableEq, Repr

/-- `LLMCheckAssertion.__init__` (assertion_types.py 45-59): normalizes the
expected response with `.upper()` when storing it. -/
def mkLLMCheckAssertion (name promptTemplate : String)
    (expectedResponse : String := "YES") (isOutcomeCheck : Bool := false) :
    LLMCheckAssertion :=
  ⟨name, promptTemplate, pyUpper expectedResponse, isOutcomeCheck⟩

/-- Outcome of the grading LLM call inside `_run_llm_check` (an external
input): a response with joined text parts `raw`, a response with no
candidates, or a raised exception with the given type name. -/
inductive GradingOutcome where
  | answered (raw : String) : GradingOutcome
  | noCandidates : GradingOutcome
  | exn (typeName : String) : GradingOutcome
deriving DecidableEq, Repr

/-- `LLMCheckAssertion._run_llm_check` (assertion_types.py 119-147): the
answer is normalized with `.strip().upper()`; the no-candidates and exception
branches return sentinel strings verbatim. -/
def runLLMCheck : GradingOutcome → String
  | .answered raw => pyUpper (pyStrip raw)
  | .noCandidates => "[LLM_NO_CANDIDATES]"
  | .exn typeName => "[LLM_EXCEPTION: " ++ typeName ++ "]"

/-- External input consumed by one `LLMCheckAssertion.evaluate` call: either
the grading call runs (with its `GradingOutcome`), or formatting the specific
prompt template raises `KeyError` for a missing placeholder key
(assertion_types.py 179-189; the generic formatting-error branch at 190-197
behaves the same for the fields the claims are about). -/
inductive AssertionOracle where
  | grading (o : GradingOutcome) : AssertionOracle
  | templateKeyError (key : String) : AssertionOracle
deriving DecidableEq, Repr

/-- `LLMCheckAssertion.evaluate` (assertion_types.py 149-220):
`passed = llm_answer.startswith(self.expected_response)`.  The prompt
construction (history rendering, preamble, `{tool_history}` substitution) only
feeds the grading LLM, which is an oracle here, so it does not appear in the
model; the template-`KeyError` branch returns a failed result.  `evaluate`
never raises: every failure path returns an `AssertionResult`. -/
def evaluateAssertion (a : LLMCheckAssertion) (o : AssertionOracle) : AssertionResult :=
  match o with
  | .templateKeyError key =>
    ⟨a.name, false,
      "Prompt template formatting error: Missing key '" ++ key ++
        "'. Check assertion definition.", a.isOutcomeCheck⟩
  | .grading g =>
    let llmAnswer := runLLMCheck g
    let passed := pyStartsWith llmAnswer a.expectedResponse
    let details :=
      if passed then ""
      else "LLM check failed. Expected prefix '" ++ a.expectedResponse ++
        "', Got '" ++ llmAnswer ++ "'.\n"
    ⟨a.name, passed, details, a.isOutcomeCheck⟩

/-- The assertion-evaluation loop of `GeminiEvaluator.evaluate_trace`
(evaluator.py 421-463), accumulating in code order: the running
`outcome_passed : Optional[bool]` (first outcome check sets it, a later failed
outcome check forces `False`), the trajectory counters, and `assertion_results`.
The `i`-th assertion consumes `gOracle i`.  Since `evaluate` never raises
(see `evaluateAssertion`), the `except` handler at evaluator.py 450-463 is
unreachable and has no counterpart here. -/
def assertionLoop (gOracle : Nat → AssertionOracle) :
    List LLMCheckAssertion → Option Bool → Nat → Nat → List AssertionResult →
    List AssertionResult × Option Bool × Nat × Nat
  | [], outcome, trajPassed, trajTotal, acc => (acc, outcome, trajPassed, trajTotal)
  | a :: rest, outcome, trajPassed, trajTotal, acc =>
    let r := evaluateAssertion a (gOracle 0)
    let acc := acc ++ [r]
    if r.isOutcomeCheck then
      let outcome :=
        match outcome with
        | none => some r.passed
        | some b => if ¬ r.passed then some false else some b
      assertionLoop (fun n => gOracle (n + 1)) rest outcome trajPassed trajTotal acc
    else
      assertionLoop (fun n => gOracle (n + 1)) rest outcome
        (if r.passed then trajPassed + 1 else trajPassed) (trajTotal + 1) acc

/-- `AgentTurnData` (assertion_types.py 17-24): data recorded for one turn.
`tool_states` holds the captured last-search / last-booking call states (each
an `{args, result}` pair, cf. `ToolCallState`). -/
structure AgentTurnData where
  turnIndex : Nat
  userInput : Option String
  agentResponseText : Option String
  searchState : Option (JVal × JVal)
  bookState : Option (JVal × JVal)
deriving DecidableEq, Repr

/-- Which `break` (or the `while` guard) ended the conversation loop of
`evaluate_trace` (evaluator.py 293-399).  The code has no explicit state
value; this labels the loop's exit points, matching the driver state machine
of the specification (Completed = any of the four break causes, MaxTurnsHit =
guard exhaustion). -/
inductive TermCause where
  | noUserInput : TermCause        -- `if user_input is None` at 297
  | simulationErrorInInput : TermCause  -- `"[Simulation Error" in user_input` at 302
  | agentErrorReply : TermCause    -- error sentinel in the agent reply at 344
  | traceExhausted : TermCause     -- no further user turn in the trace at 395
  | maxTurnsReached : TermCause    -- `current_turn_index < max_turns` guard fails
deriving DecidableEq, Repr

/-- The next-user-turn scan of evaluator.py 377-393, started at absolute index
`i` (the caller passes `goldenTrace.drop i`): find the first step with
`type == "user"` whose `text` is a string, skipping other steps and user steps
with invalid text; return its text and its index (the scan `break`s without
advancing past it), or `none` and the list length when exhausted. -/
def scanNextUserFrom : List TraceStepDict → Nat → Option String × Nat
  | [], i => (none, i)
  | step :: rest, i =>
    if pyGet step.type? = .str "user" then
      match pyGet step.text? with
      | .str s => (some s, i)
      | _ => scanNextUserFrom rest (i + 1)
    else scanNextUserFrom rest (i + 1)

/-- The initial-user-input extraction of evaluator.py 256-281: the input is
taken from `golden_trace[0]` only — it must be a dict with `type == "user"`
and a string `text`; `if not initial_user_input` also rejects the empty
string.  `none` means the run returns the early error report. -/
def initialUserInput : List TraceStepDict → Option String
  | [] => none
  | step :: _ =>
    if pyGet step.type? = .str "user" then
      match pyGet step.text? with
      | .str s => if s = "" then none else some s
      | _ => none
    else none

/-- State at the exit of the conversation loop. -/
structure LoopState where
  cause : TermCause
  turnIdx : Nat            -- `current_turn_index` at exit
  traceIdx : Nat
  hist : History
  evalG : EvalGlobals
  turnHistory : List AgentTurnData
  totalToolCalls : Nat
  execLog : List ((String × JVal) × ExecOutcome)
deriving DecidableEq, Repr

/-- The conversation loop of `evaluate_trace` in replay mode
(`simulate_user=False`, evaluator.py 293-399), compiled to structural
recursion on the fuel `maxTurns - turnIdx` (the caller keeps
`fuel + turnIdx = maxTurns`, so `fuel = 0` is exactly the failure of the
`current_turn_index < max_turns` guard).  Each iteration increments the turn
counter, checks the user input, runs `agent.interact`, captures the
tools-module last-call states via the agent's getters (`get_last_search_call`
/ `get_last_booking_call` of tools.py 136-143 — these read the tools-module
globals, which `tool_executor_replay` never writes), accumulates
`total_tool_calls`, records the turn, checks the reply-sentinel end
conditions, and scans the golden trace for the next user turn. -/
def runLoopAux (goldenTrace : List TraceStepDict) (agentOracle : Nat → TurnOracle) :
    Nat → Nat → Nat → Option String → History → EvalGlobals →
    List AgentTurnData → Nat → List ((String × JVal) × ExecOutcome) → LoopState
  | 0, turnIdx, traceIdx, _, hist, evalG, turnHistory, total, execLog =>
    -- `current_turn_index < max_turns` fails: the loop just stops
    ⟨.maxTurnsReached, turnIdx, traceIdx, hist, evalG, turnHistory, total, execLog⟩
  | fuel + 1, turnIdx, traceIdx, userInput?, hist, evalG, turnHistory, total, execLog =>
    let t := turnIdx + 1  -- `current_turn_index += 1`
    match userInput? with
    | none => ⟨.noUserInput, t, traceIdx, hist, evalG, turnHistory, total, execLog⟩
    | some userInput =>
      if containsSubstr "[Simulation Error" userInput then
        ⟨.simulationErrorInInput, t, traceIdx, hist, evalG, turnHistory, total, execLog⟩
      else
        let ir := interact goldenTrace (agentOracle turnIdx) hist evalG userInput
        -- capture tool state *after* the interact call using the getters
        let searchState := ir.toolsG.lastSearchCall
        let bookState := ir.toolsG.lastBookingCall
        let turnToolCalls :=
          (if searchState.isSome then 1 else 0) + (if bookState.isSome then 1 else 0)
        let total := total + turnToolCalls
        let turnHistory := turnHistory ++
          [⟨t, some userInput, some ir.reply, searchState, bookState⟩]
        let execLog := execLog ++ ir.execLog
        if containsSubstr "[No Agent Response Found]" ir.reply
            ∨ containsSubstr "Sorry, an error occurred" ir.reply
            ∨ containsSubstr "[Agent provided no response]" ir.reply then
          ⟨.agentErrorReply, t, traceIdx, ir.history, ir.evalG, turnHistory, total, execLog⟩
        else
          -- `trace_index += 1`, then scan forward for the next user turn
          let scanned := scanNextUserFrom (goldenTrace.drop (traceIdx + 1)) (traceIdx + 1)
          match scanned.1 with
          | none =>
            ⟨.traceExhausted, t, scanned.2, ir.history, ir.evalG, turnHistory, total, execLog⟩
          | some nextInput =>
            runLoopAux goldenTrace agentOracle fuel t scanned.2 (some nextInput)
              ir.history ir.evalG turnHistory total execLog

/-- `max_turns_hit = current_turn_index >= max_turns` (evaluator.py 482). -/
def maxTurnsHitFlag (maxTurns : Nat) (st : LoopState) : Bool := maxTurns ≤ st.turnIdx

/-- `EvaluationReport`: the dict returned by `evaluate_trace`.
`trajectory_quality` is modelled in exact arithmetic (`ℚ`): Python computes it
with float division, which agrees with the exact ratio up to rounding and is
irrelevant to the claims' content. -/
structure EvaluationReport where
  goal : String
  outcomePassed : Bool
  trajectoryQuality : ℚ
  toolCalls : Nat
  details : List AssertionResult
  error : Option String
deriving DecidableEq, Repr

/-- A full `evaluate_trace` run's observable result: the returned report, and
the loop-exit state (`none` when the early initial-user-turn error return at
evaluator.py 270-281 fires before the loop). -/
structure RunResult where
  report : EvaluationReport
  loopExit : Option LoopState
deriving DecidableEq, Repr

/-- `GeminiEvaluator.evaluate_trace` (evaluator.py 187-500) in replay mode
(`simulate_user=False`, `agent_tool_map` provided): extract the initial user
input from `golden_trace[0]` (early error report when missing/invalid), run
the conversation loop from a cleared history and cleared tool-state globals,
return the no-turns error report when no agent turn was recorded, otherwise
evaluate the assertions (the `i`-th one against `gOracle i`), fold the
outcome flag (`None` defaults to `False`), and compute
`trajectory_quality = passed/total` for trajectory checks (`1.0` when there
are none). -/
def evaluateTrace (goldenTrace : List TraceStepDict)
    (assertions : List LLMCheckAssertion) (goalDescription : String)
    (agentOracle : Nat → TurnOracle) (gOracle : Nat → AssertionOracle)
    (maxTurns : Nat := 15) : RunResult :=
  match initialUserInput goldenTrace with
  | none =>
    ⟨⟨goalDescription, false, 0, 0, [],
      some "Missing or invalid initial UserTurn in trace."⟩, none⟩
  | some input0 =>
    -- agent.history = []; reset_tool_states(); evaluator-module globals unset
    let st := runLoopAux goldenTrace agentOracle maxTurns 0 0 (some input0) [] {} [] 0 []
    if st.turnHistory.isEmpty then
      ⟨⟨goalDescription, false, 0, st.totalToolCalls, [],
        some "No agent turns recorded during execution."⟩, some st⟩
    else
      let agg := assertionLoop gOracle assertions none 0 0 []
      let assertionResults := agg.1
      let outcomePassed? := agg.2.1
      let trajPassed := agg.2.2.1
      let trajTotal := agg.2.2.2
      let finalOutcomePassed := outcomePassed?.getD false
      let trajectoryQuality : ℚ :=
        if trajTotal > 0 then (trajPassed : ℚ) / (trajTotal : ℚ) else 1
      ⟨⟨goalDescription, finalOutcomePassed, trajectoryQuality, st.totalToolCalls,
        assertionResults, none⟩, some st⟩

/-- The per-step match condition of `_find_matching_tool_call_in_trace`, as a
boolean predicate (used to state theorems about the scan via `List.find?`):
the step is a `tool_interaction` with the requested name whose arguments are
equal under key-sorted JSON canonicalization. -/
def stepMatches (toolName : String) (toolArgs : JVal) (s : TraceStepDict) : Bool :=
  decide (pyGet s.type? = .str "tool_interaction"
    ∧ pyGet s.name? = .str toolName
    ∧ canon toolArgs = canon (argsGetD s))

/-- Running the replay tool executor over a whole sequence of agent tool
calls, threading the evaluator-module globals (the only mutable state the
executor touches); returns the per-call outcomes and the final globals. -/
def runCalls (goldenTrace : List TraceStepDict) (g : EvalGlobals) :
    List (String × JVal) → List ExecOutcome × EvalGlobals
  | [] => ([], g)
  | (name, args) :: rest =>
    let (out, g') := toolExecutorReplay goldenTrace g name args
    let (outs, g'') := runCalls goldenTrace g' rest
    (out :: outs, g'')

/-- Modelled from the spec: the answer normalization described in §4.6
("strip markdown/punctuation, uppercase").  Used only to compare the spec's
wording against the code's actual normalization (`runLLMCheck`), which merely
strips whitespace and uppercases. -/
def specNormalizeAnswer (raw : String) : String :=
  let mdPunct := ['*', '_', '`', '#', '.', ',', '!', '?', ':', ';']
  pyUpper (pyStrip ⟨raw.data.filter (fun c => ¬ (c ∈ mdPunct))⟩)

/-! ### Concrete fixtures

A golden trace following the worked scenario of spec §8, plus the oracles and
degenerate traces used by counterexamples and witnesses. -/

/-- A `{"type": "user", "text": t}` golden-trace step. -/
def userStep (t : String) : TraceStepDict :=
  { type? := some (.str "user"), text? := some (.str t) }

/-- A `{"type": "agent", "text": t}` golden-trace step. -/
def agentStep (t : String) : TraceStepDict :=
  { type? := some (.str "agent"), text? := some (.str t) }

/-- A `{"type": "tool_interaction", "name": n, "args": a, "result": r}`
golden-trace step. -/
def toolStep (n : String) (a r : JVal) : TraceStepDict :=
  { type? := some (.str "tool_interaction"), name? := some (.str n),
    args? := some a, result? := some r }

/-- `{"origin": "SFO", "destination": "JFK", "departure_date": "2024-10-27"}` -/
def argsSearch : JVal :=
  .obj (.cons "origin" (.str "SFO") (.cons "destination" (.str "JFK")
    (.cons "departure_date" (.str "2024-10-27") .nil)))

/-- The same search arguments with the keys in a different insertion order
(structurally equal under key-sorted canonicalization). -/
def argsSearchPerm : JVal :=
  .obj (.cons "departure_date" (.str "2024-10-27") (.cons "origin" (.str "SFO")
    (.cons "destination" (.str "JFK") .nil)))

/-- Off-trace search arguments: departure date off by one day. -/
def argsSearchOff : JVal :=
  .obj (.cons "origin" (.str "SFO") (.cons "destination" (.str "JFK")
    (.cons "departure_date" (.str "2024-10-28") .nil)))

/-- `[{"flight_id": "AA123", "price": 395}]` -/
def searchResult : JVal :=
  .arr (.cons (.obj (.cons "flight_id" (.str "AA123")
    (.cons "price" (.num 395) .nil))) .nil)

/-- `{"flight_id": "AA123"}` -/
def argsBook : JVal := .obj (.cons "flight_id" (.str "AA123") .nil)

/-- `{"booking_id": "BK78910", "status": "confirmed"}` -/
def bookResult : JVal :=
  .obj (.cons "booking_id" (.str "BK78910") (.cons "status" (.str "confirmed") .nil))

/-- The golden trace of spec §8's worked scenario: two user turns, two
recorded tool interactions, two agent turns. -/
def sampleTrace : List TraceStepDict :=
  [userStep "book SFO to JFK tomorrow",
   toolStep "search_flights" argsSearch searchResult,
   agentStep "I found AA123 for $395.",
   userStep "book AA123",
   toolStep "book_flight" argsBook bookResult,
   agentStep "Booked, your id is BK78910."]

/-- Agent oracle answering every turn with plain text (no tool calls). -/
def textOracle : Nat → TurnOracle := fun _ => { parts1 := [.text "ok"] }

/-- Agent oracle whose first turn calls `search_flights` with the off-trace
arguments (the off-by-one date of spec §8's mismatch scenario). -/
def mismatchOracle : Nat → TurnOracle := fun n =>
  if n = 0 then
    { parts1 := [.functionCall "search_flights" argsSearchOff],
      parts2 := [.text "done"] }
  else { parts1 := [.text "ok"] }

/-- Agent oracle whose first turn calls `search_flights` with arguments that
match the recorded step up to key order. -/
def matchOracle : Nat → TurnOracle := fun n =>
  if n = 0 then
    { parts1 := [.functionCall "search_flights" argsSearchPerm],
      parts2 := [.text "I found flights."] }
  else { parts1 := [.text "ok"] }

/-- Grading oracle answering every assertion with "YES". -/
def gOracleYes : Nat → AssertionOracle := fun _ => .grading (.answered "YES")

/-- A trace whose only step records a matching tool interaction whose stored
`result` is JSON `null`. -/
def nullResultTrace : List TraceStepDict :=
  [toolStep "get_status" (.obj .nil) .null]

/-- A trace that does not start with a user step but contains a valid user
step later. -/
def lateUserTrace : List TraceStepDict :=
  [agentStep "Welcome!", userStep "hello"]

/-- A first LLM response containing *two* function-call parts. -/
def doubleCallParts : List RespPart :=
  [.functionCall "search_flights" argsSearchPerm, .functionCall "book_flight" argsBook]

/-- The worked scenario's outcome-check assertion. -/
def outcomeAssertion : LLMCheckAssertion :=
  mkLLMCheckAssertion "BookingConfirmedWithID"
    "Did the agent confirm the booking and give its ID?" "YES" true

/-- A trajectory assertion that will be graded "YES". -/
def trajAssertionA : LLMCheckAssertion :=
  mkLLMCheckAssertion "OfferedFlightOptions"
    "Did the agent present the flight options found?" "YES" false

/-- A trajectory assertion that will be graded "NO". -/
def trajAssertionB : LLMCheckAssertion :=
  mkLLMCheckAssertion "CorrectDateInterpretation"
    "Did the agent use the absolute date 2024-10-27?" "YES" false

/-- Grading oracle: "NO" for the third assertion, "YES" otherwise. -/
def gOracleMixed : Nat → AssertionOracle := fun n =>
  if n = 2 then .grading (.answered "NO") else .grading (.answered "YES")

/-- A completed replay run with one outcome check and two trajectory checks,
one of which fails. -/
def mixedAssertionRun : RunResult :=
  evaluateTrace sampleTrace [outcomeAssertion, trajAssertionA, trajAssertionB]
    "Book the cheapest flight SFO to JFK" textOracle gOracleMixed 15

/-- The replay run of the worked scenario in which the agent's first turn
issues the off-trace `search_flights` call. -/
def mismatchRun : RunResult :=
  evaluateTrace sampleTrace [] "Book the cheapest flight SFO to JFK" mismatchOracle gOracleYes 15

/-- The replay run of the worked scenario in which the agent's first turn
issues a `search_flights` call matching the recorded step. -/
def matchRun : RunResult :=
  evaluateTrace sampleTrace [] "Book the cheapest flight SFO to JFK" matchOracle gOracleYes 15

/-! ### Helper lemmas -/

/-- The trace scan is `List.find?` of the per-step match condition, returning
the first matching step's stored result (`null` for "no match"). -/
theorem findMatching_eq_find? (n : String) (a : JVal) (t : List TraceStepDict) :
    findMatchingToolCallInTrace n a t =
      (match t.find? (stepMatches n a) with
       | some s => pyGet s.result?
       | none => .null) := by
  induction t with
  | nil => rfl
  | cons s rest ih =>
    by_cases h : (pyGet s.type? = .str "tool_interaction"
        ∧ pyGet s.name? = .str n ∧ canon a = canon (argsGetD s))
    · simp [findMatchingToolCallInTrace, List.find?, stepMatches, h]
    · simp [findMatchingToolCallInTrace, List.find?, stepMatches, h, ih]

/-- `interact` always leaves the tools-module globals cleared: it resets them
on entry and, with the replay executor installed, nothing ever writes them
again (the real tool functions never run). -/
theorem interact_toolsG_none (t : List TraceStepDict) (o : TurnOracle)
    (h : History) (g : EvalGlobals) (u : String) :
    (interact t o h g u).toolsG = ({} : ToolsGlobals) := by
  unfold interact
  cases hfc : findFunctionCall o.parts1 with
  | none => cases hex : extractTextResponse o.parts1 <;> simp [hex]
  | some pr =>
    obtain ⟨n, a⟩ := pr
    rcases hr : toolExecutorReplay t g n a with ⟨out, g'⟩
    cases out <;> cases hex : extractTextResponse o.parts2 <;> simp [hr, hex]

/-- The conversation loop never increases `total_tool_calls`: the captured
last-call states read the tools-module globals, which stay cleared in replay
mode, so every per-turn contribution is zero. -/
theorem runLoopAux_total (trace : List TraceStepDict) (aO : Nat → TurnOracle) :
    ∀ (fuel turnIdx traceIdx : Nat) (ui : Option String) (hist : History)
      (g : EvalGlobals) (th : List AgentTurnData) (total : Nat)
      (log : List ((String × JVal) × ExecOutcome)),
      (runLoopAux trace aO fuel turnIdx traceIdx ui hist g th total log).totalToolCalls
        = total := by
  intro fuel
  induction fuel with
  | zero => intro _ _ _ _ _ _ _ _; rfl
  | succ fuel ih =>
    intro turnIdx traceIdx ui hist g th total log
    cases ui with
    | none => rfl
    | some u =>
      simp only [runLoopAux]
      by_cases hsim : containsSubstr "[Simulation Error" u = true
      · simp [hsim]
      · simp only [hsim, if_false, Bool.false_eq_true, interact_toolsG_none]
        split
        · rfl
        · split
          · rfl
          · exact ih _ _ _ _ _ _ _ _

/-- Invariant of the assertion-evaluation loop: it appends one result per
assertion, its final outcome flag (defaulted to `False` as at evaluator.py
466-474) is the conjunction of the initial flag's constraints with "some
outcome check exists and all passed", and the trajectory counters count the
non-outcome results (and the passed ones among them). -/
theorem assertionLoop_spec :
    ∀ (as : List LLMCheckAssertion) (gO : Nat → AssertionOracle) (oc : Option Bool)
      (tp tt : Nat) (acc : List AssertionResult),
      ∃ new : List AssertionResult,
        (assertionLoop gO as oc tp tt acc).1 = acc ++ new
        ∧ ((assertionLoop gO as oc tp tt acc).2.1.getD false = true
            ↔ (oc ≠ some false
               ∧ (oc = some true ∨ ∃ r ∈ new, r.isOutcomeCheck = true)
               ∧ (∀ r ∈ new, r.isOutcomeCheck = true → r.passed = true)))
        ∧ (assertionLoop gO as oc tp tt acc).2.2.1
            = tp + new.countP (fun r => !r.isOutcomeCheck && r.passed)
        ∧ (assertionLoop gO as oc tp tt acc).2.2.2
            = tt + new.countP (fun r => !r.isOutcomeCheck) := by
  intro as
  induction as with
  | nil =>
    intro gO oc tp tt acc
    refine ⟨[], by simp [assertionLoop], ?_, by simp [assertionLoop], by simp [assertionLoop]⟩
    rcases oc with _ | b
    · simp [assertionLoop]
    · cases b <;> simp [assertionLoop]
  | cons a rest ih =>
    intro gO oc tp tt acc
    by_cases hoc : (evaluateAssertion a (gO 0)).isOutcomeCheck = true
    · -- outcome-check branch
      set r := evaluateAssertion a (gO 0) with hr
      rcases oc with _ | b
      · have hstep : assertionLoop gO (a :: rest) none tp tt acc
            = assertionLoop (fun n => gO (n + 1)) rest (some r.passed) tp tt (acc ++ [r]) := by
          simp [assertionLoop, ← hr, hoc]
        obtain ⟨new', h1, h2, h3, h4⟩ :=
          ih (fun n => gO (n + 1)) (some r.passed) tp tt (acc ++ [r])
        refine ⟨r :: new', ?_, ?_, ?_, ?_⟩
        · rw [hstep, h1]; simp
        · rw [hstep, h2]
          by_cases hp : r.passed = true
          · simp [hp, hoc]
          · simp only [Bool.not_eq_true] at hp
            simp [hp, hoc]
        · rw [hstep, h3]; simp [hoc]
        · rw [hstep, h4]; simp [hoc]
      · have hstep : assertionLoop gO (a :: rest) (some b) tp tt acc
            = assertionLoop (fun n => gO (n + 1)) rest
                (if ¬ r.passed = true then some false else some b) tp tt (acc ++ [r]) := by
          simp [assertionLoop, ← hr, hoc]
        obtain ⟨new', h1, h2, h3, h4⟩ :=
          ih (fun n => gO (n + 1)) (if ¬ r.passed = true then some false else some b)
            tp tt (acc ++ [r])
        refine ⟨r :: new', ?_, ?_, ?_, ?_⟩
        · rw [hstep, h1]; simp
        · rw [hstep, h2]
          by_cases hp : r.passed = true
          · cases b <;> simp [hp, hoc]
          · simp only [Bool.not_eq_true] at hp
            cases b <;> simp [hp, hoc]
        · rw [hstep, h3]; simp [hoc]
        · rw [hstep, h4]; simp [hoc]
    · -- trajectory-check branch
      set r := evaluateAssertion a (gO 0) with hr
      have hstep : assertionLoop gO (a :: rest) oc tp tt acc
          = assertionLoop (fun n => gO (n + 1)) rest oc
              (if r.passed then tp + 1 else tp) (tt + 1) (acc ++ [r]) := by
        simp [assertionLoop, ← hr, hoc]
      obtain ⟨new', h1, h2, h3, h4⟩ := ih (fun n => gO (n + 1)) oc
        (if r.passed then tp + 1 else tp) (tt + 1) (acc ++ [r])
      have hocF : r.isOutcomeCheck = false := by simpa using hoc
      refine ⟨r :: new', ?_, ?_, ?_, ?_⟩
      · rw [hstep, h1]; simp
      · rw [hstep, h2]; simp [hocF]
      · rw [hstep, h3]
        by_cases hp : r.passed = true
        · simp [hp, hocF, List.countP_cons]
          omega
        · simp [hp, hocF, List.countP_cons]
      · rw [hstep, h4]; simp [hocF, List.countP_cons]; omega

/-- Each loop iteration records at most one turn, so the loop adds at most
`fuel` turns to the accumulator. -/
theorem runLoopAux_turnHistory_le (trace : List TraceStepDict) (aO : Nat → TurnOracle) :
    ∀ (fuel turnIdx traceIdx : Nat) (ui : Option String) (hist : History)
      (g : EvalGlobals) (th : List AgentTurnData) (total : Nat)
      (log : List ((String × JVal) × ExecOutcome)),
      (runLoopAux trace aO fuel turnIdx traceIdx ui hist g th total log).turnHistory.length
        ≤ th.length + fuel := by
  intro fuel
  induction fuel with
  | zero => intro _ _ _ _ _ _ _ _; simp [runLoopAux]
  | succ fuel ih =>
    intro turnIdx traceIdx ui hist g th total log
    cases ui with
    | none => simp [runLoopAux]
    | some u =>
      simp only [runLoopAux]
      by_cases hsim : containsSubstr "[Simulation Error" u = true
      · simp [hsim]
      · simp only [hsim, if_false, Bool.false_eq_true]
        split
        · simp
        · split
          · simp
          · refine le_trans (ih _ _ _ _ _ _ _ _) ?_
            simp
            omega

/-- The returned outcome of the replay executor does not depend on the
mutable evaluator-module globals it threads. -/
theorem toolExecutorReplay_fst_indep (trace : List TraceStepDict) (n : String)
    (a : JVal) (g₁ g₂ : EvalGlobals) :
    (toolExecutorReplay trace g₁ n a).1 = (toolExecutorReplay trace g₂ n a).1 := by
  unfold toolExecutorReplay
  by_cases h : findMatchingToolCallInTrace n a trace ≠ .null <;> simp [h]

/-- The observable outputs of `interact` (history, reply, executor log) do not
depend on the incoming evaluator-module globals. -/
theorem interact_indep (t : List TraceStepDict) (o : TurnOracle) (hist : History)
    (u : String) (g₁ g₂ : EvalGlobals) :
    (interact t o hist g₁ u).history = (interact t o hist g₂ u).history
    ∧ (interact t o hist g₁ u).reply = (interact t o hist g₂ u).reply
    ∧ (interact t o hist g₁ u).execLog = (interact t o hist g₂ u).execLog := by
  unfold interact
  cases hfc : findFunctionCall o.parts1 with
  | none => cases hex : extractTextResponse o.parts1 <;> simp [hex]
  | some pr =>
    obtain ⟨n, a⟩ := pr
    have hfst := toolExecutorReplay_fst_indep t n a g₁ g₂
    rcases hr1 : toolExecutorReplay t g₁ n a with ⟨out1, g1'⟩
    rcases hr2 : toolExecutorReplay t g₂ n a with ⟨out2, g2'⟩
    rw [hr1, hr2] at hfst
    simp only [] at hfst
    subst hfst
    cases out1 <;> cases hex : extractTextResponse o.parts2 <;> simp [hr1, hr2, hex]

/-- The conversation loop's cause, recorded turns, tool-call total and
executor log do not depend on the initial evaluator-module globals. -/
theorem runLoopAux_evalG_indep (trace : List TraceStepDict) (aO : Nat → TurnOracle) :
    ∀ (fuel turnIdx traceIdx : Nat) (ui : Option String) (hist : History)
      (th : List AgentTurnData) (total : Nat)
      (log : List ((String × JVal) × ExecOutcome)) (g₁ g₂ : EvalGlobals),
      (runLoopAux trace aO fuel turnIdx traceIdx ui hist g₁ th total log).cause
        = (runLoopAux trace aO fuel turnIdx traceIdx ui hist g₂ th total log).cause
      ∧ (runLoopAux trace aO fuel turnIdx traceIdx ui hist g₁ th total log).turnHistory
        = (runLoopAux trace aO fuel turnIdx traceIdx ui hist g₂ th total log).turnHistory
      ∧ (runLoopAux trace aO fuel turnIdx traceIdx ui hist g₁ th total log).totalToolCalls
        = (runLoopAux trace aO fuel turnIdx traceIdx ui hist g₂ th total log).totalToolCalls
      ∧ (runLoopAux trace aO fuel turnIdx traceIdx ui hist g₁ th total log).execLog
        = (runLoopAux trace aO fuel turnIdx traceIdx ui hist g₂ th total log).execLog := by
  intro fuel
  induction fuel with
  | zero => intro _ _ _ _ _ _ _ _ _; exact ⟨rfl, rfl, rfl, rfl⟩
  | succ fuel ih =>
    intro turnIdx traceIdx ui hist th total log g₁ g₂
    cases ui with
    | none => exact ⟨rfl, rfl, rfl, rfl⟩
    | some u =>
      simp only [runLoopAux]
      by_cases hsim : containsSubstr "[Simulation Error" u = true
      · simp [hsim]
      · simp only [hsim, if_false, Bool.false_eq_true, interact_toolsG_none]
        obtain ⟨hh, hr, hl⟩ := interact_indep trace (aO turnIdx) hist u g₁ g₂
        rw [← hh, ← hr, ← hl]
        split
        · exact ⟨rfl, rfl, rfl, rfl⟩
        · split
          · exact ⟨rfl, rfl, rfl, rfl⟩
          · exact ih _ _ _ _ _ _ _ _ _

/-- The loop exits through the `max_turns` guard only after consuming all its
fuel, i.e. after exactly `fuel` further recorded interactions: every other
exit is one of the four `break`s. -/
theorem runLoopAux_maxTurns_cause (trace : List TraceStepDict) (aO : Nat → TurnOracle) :
    ∀ (fuel turnIdx traceIdx : Nat) (ui : Option String) (hist : History)
      (g : EvalGlobals) (th : List AgentTurnData) (total : Nat)
      (log : List ((String × JVal) × ExecOutcome)),
      (runLoopAux trace aO fuel turnIdx traceIdx ui hist g th total log).cause
        = .maxTurnsReached →
      (runLoopAux trace aO fuel turnIdx traceIdx ui hist g th total log).turnHistory.length
        = th.length + fuel := by
  intro fuel
  induction fuel with
  | zero => intro _ _ _ _ _ _ _ _ _; rfl
  | succ fuel ih =>
    intro turnIdx traceIdx ui hist g th total log h
    cases ui with
    | none => simp [runLoopAux] at h
    | some u =>
      simp only [runLoopAux] at h ⊢
      by_cases hsim : containsSubstr "[Simulation Error" u = true
      · simp [hsim] at h
      · simp only [hsim, if_false, Bool.false_eq_true] at h ⊢
        revert h
        split
        · intro h; simp at h
        · split
          · intro h; simp at h
          · intro h
            rw [ih _ _ _ _ _ _ _ _ h]
            simp
            omega

/-! ### Claim theorems -/

/-- **C1**.  The claim (and spec §4.2/§4.5/§7) says a replay mismatch raised
by the tool executor is not caught inside `Agent.interact` but propagates to
the top-level evaluation caller, leaving a report with a non-null `error`.
On the code this fails: in the worked scenario with the off-by-one date call,
the executor does raise `EvalToolMismatchError` (the run's executor log shows
it), but `interact`'s blanket `except Exception` (agent.py 256) catches it and
turns it into the reply `"Sorry, an error occurred: ..."`; the loop ends via
the error-sentinel check, and the completed report has `error = None`.
(run.py 488 even has a dedicated, now unreachable,
`except EvalToolMismatchError` handler — the claim matches the code's own
intent, the blanket catch defeats it.) -/
theorem c1_mismatch_error_swallowed :
    (mismatchRun.loopExit.map LoopState.execLog)
      = some [(("search_flights", argsSearchOff),
          .err (.evalToolMismatch "search_flights" argsSearchOff))]
    ∧ (mismatchRun.loopExit.map fun st => st.turnHistory.map AgentTurnData.agentResponseText)
      = some [some ("Sorry, an error occurred: "
          ++ toolExecErrorText (.evalToolMismatch "search_flights" argsSearchOff))]
    ∧ (mismatchRun.loopExit.map LoopState.cause) = some .agentErrorReply
    ∧ mismatchRun.report.error = none := by
  refine ⟨?_, ?_, ?_, ?_⟩ <;> decide

/-- **C3**.  The claim (and spec §4.7) says the report's `tool_calls` equals
the number of tool invocations executed through the configured executor.  On
the code it is always `0` in replay mode: `tool_executor_replay`'s
`global _last_search_call, _last_booking_call` statement binds
evaluator-module variables, not the tools-module ones its comment says it
updates, and `interact` resets the tools-module state each turn, so the
getters the evaluator counts from always return `None`.  First conjunct: every
replay report carries `tool_calls = 0`.  Second conjunct: in the worked
scenario the executor demonstrably replays one `search_flights` call, yet
`tool_calls = 0`. -/
theorem c3_tool_calls_always_zero :
    (∀ (trace : List TraceStepDict) (asserts : List LLMCheckAssertion)
       (goal : String) (aO : Nat → TurnOracle) (gO : Nat → AssertionOracle)
       (maxTurns : Nat),
       (evaluateTrace trace asserts goal aO gO maxTurns).report.toolCalls = 0)
    ∧ (matchRun.loopExit.map LoopState.execLog)
        = some [(("search_flights", argsSearchPerm), .ok searchResult)]
    ∧ matchRun.report.toolCalls = 0 := by
  refine ⟨fun trace asserts goal aO gO maxTurns => ?_, by decide, by decide⟩
  unfold evaluateTrace
  cases h0 : initialUserInput trace with
  | none => rfl
  | some u0 =>
    simp only []
    split
    · exact runLoopAux_total trace aO _ _ _ _ _ _ _ _ _
    · exact runLoopAux_total trace aO _ _ _ _ _ _ _ _ _

/-- **C2** (counterexample).  The claim says the replay executor raises the
mismatch error *exactly when no matching step exists*.  On a trace containing
a step that matches the call's name and canonicalized arguments but whose
recorded `result` is JSON `null`, the executor nevertheless raises
`EvalToolMismatchError`, because `tool_executor_replay` tests
`if result is not None` and `_find_matching_tool_call_in_trace` returns the
matching step's `None` result. -/
theorem c2_counterexample :
    (∃ s ∈ nullResultTrace, stepMatches "get_status" (.obj .nil) s = true) ∧
    (toolExecutorReplay nullResultTrace {} "get_status" (.obj .nil)).1
      = .err (.evalToolMismatch "get_status" (.obj .nil)) := by
  constructor
  · exact ⟨toolStep "get_status" (.obj .nil) .null, by decide, by decide⟩
  · decide

/-- **C2** (amended).  For every tool call handled by the replay executor
against a golden trace: if the first step (in trace order) matching the name
and the key-sorted-canonicalized arguments has a non-null recorded `result`,
the executor returns exactly that result (a pure lookup on the read-only
trace, so repeated identical calls are served from the same step); it raises
the replay-mismatch error `EvalToolMismatchError` exactly when either no
matching step exists, or the first matching step's recorded result is
null/missing. -/
theorem c2_replay_lookup_amended (trace : List TraceStepDict) (g : EvalGlobals)
    (name : String) (args : JVal) :
    (∀ s, trace.find? (stepMatches name args) = some s → pyGet s.result? ≠ .null →
      (toolExecutorReplay trace g name args).1 = .ok (pyGet s.result?))
    ∧ (trace.find? (stepMatches name args) = none →
      (toolExecutorReplay trace g name args).1 = .err (.evalToolMismatch name args))
    ∧ (∀ s, trace.find? (stepMatches name args) = some s → pyGet s.result? = .null →
      (toolExecutorReplay trace g name args).1 = .err (.evalToolMismatch name args)) := by
  refine ⟨fun s hs hnn => ?_, fun hn => ?_, fun s hs hn => ?_⟩
  · simp [toolExecutorReplay, findMatching_eq_find?, hs, hnn]
  · simp [toolExecutorReplay, findMatching_eq_find?, hn]
  · simp [toolExecutorReplay, findMatching_eq_find?, hs, hn]

/-- **C2** (witness).  The amended lookup law applied to the worked scenario's
trace: the recorded `search_flights` step is returned for a call whose
arguments permute the recorded key order, and an off-trace date raises the
mismatch error. -/
theorem c2_replay_lookup_amended_witness :
    (toolExecutorReplay sampleTrace {} "search_flights" argsSearchPerm).1
      = .ok searchResult
    ∧ (toolExecutorReplay sampleTrace {} "search_flights" argsSearchOff).1
      = .err (.evalToolMismatch "search_flights" argsSearchOff) := by
  constructor
  · exact (c2_replay_lookup_amended sampleTrace {} "search_flights" argsSearchPerm).1
      (toolStep "search_flights" argsSearch searchResult) (by decide) (by decide)
  · exact (c2_replay_lookup_amended sampleTrace {} "search_flights" argsSearchOff).2.1
      (by decide)

/-- **C6** (counterexample).  The claim says `interact` processes *each*
tool-call request of the LLM response in order.  When the first response
contains two function-call parts, the agent invokes the executor exactly once
(`_find_function_call` returns only the first part), never touching the
second (`book_flight`) request. -/
theorem c6_counterexample :
    (doubleCallParts.countP fun p =>
      match p with | .functionCall _ _ => true | _ => false) = 2
    ∧ (interact sampleTrace ⟨doubleCallParts, [.text "done"]⟩ [] {} "hi").execLog.length = 1
    ∧ (∀ e ∈ (interact sampleTrace ⟨doubleCallParts, [.text "done"]⟩ [] {} "hi").execLog,
        e.1.1 = "search_flights") := by
  refine ⟨by decide, by decide, by decide⟩

/-- **C6** (amended).  When the LLM response contains one or more tool-call
requests, `interact` processes only the *first* one: it appends the tool_call
turn, invokes the configured executor exactly once on that (name, arguments),
and — if the executor returns — appends the tool_result turn before the final
text reply; all later tool-call requests in the same response are ignored.
(If the executor raises, the blanket handler appends the apology reply
instead; see C1.) -/
theorem c6_first_call_only_amended (trace : List TraceStepDict) (o : TurnOracle)
    (hist : History) (g : EvalGlobals) (u : String) (n : String) (a : JVal)
    (hfc : findFunctionCall o.parts1 = some (n, a)) :
    (interact trace o hist g u).execLog = [((n, a), (toolExecutorReplay trace g n a).1)]
    ∧ (interact trace o hist g u).history =
        (hist ++ [("user", .text u), ("model", .functionCall n a)]) ++
        (match (toolExecutorReplay trace g n a).1 with
         | .err e => [("model", .text ("Sorry, an error occurred: " ++ toolExecErrorText e))]
         | .ok r =>
           ("user", .functionResponse n r) ::
             (match extractTextResponse o.parts2 with
              | some t => [("model", .text t)]
              | none => [])) := by
  unfold interact
  rw [hfc]
  rcases hr : toolExecutorReplay trace g n a with ⟨out, g'⟩
  cases out with
  | err e => simp [hr]
  | ok r => cases hex : extractTextResponse o.parts2 <;> simp [hr, hex]

/-- **C6** (witness).  The amended law applied to the worked scenario's
matching first-turn call. -/
theorem c6_first_call_only_amended_witness :
    (interact sampleTrace (matchOracle 0) [] {} "book SFO to JFK tomorrow").execLog
      = [(("search_flights", argsSearchPerm),
          (toolExecutorReplay sampleTrace {} "search_flights" argsSearchPerm).1)] :=
  (c6_first_call_only_amended sampleTrace (matchOracle 0) [] {}
    "book SFO to JFK tomorrow" "search_flights" argsSearchPerm (by decide)).1

/-- **C7** (counterexample).  The claim says the raw grading answer is
normalized by stripping markdown/punctuation and uppercasing, `passed` being
the prefix test on that normalization.  The code only does
`.strip().upper()`: for the raw answer `"**YES**"` the spec-worded
normalization (`specNormalizeAnswer`) yields a string starting with `"YES"`,
yet the evaluated assertion fails. -/
theorem c7_counterexample :
    pyStartsWith (specNormalizeAnswer "**YES**") "YES" = true
    ∧ (evaluateAssertion (mkLLMCheckAssertion "BookingConfirmedWithID"
        "Did the agent confirm?" "YES" true)
        (.grading (.answered "**YES**"))).passed = false := by
  refine ⟨by decide, by decide⟩

/-- **C7** (amended).  The raw grading-LLM answer is normalized by stripping
leading/trailing whitespace and uppercasing only (no markdown or punctuation
removal); the assertion result's `passed` is true exactly when that
normalized answer starts with the uppercased `expected_response`; the
no-candidates and exception branches yield bracketed sentinel answers
retained verbatim, which fail the check unless they happen to start with the
expected prefix. -/
theorem c7_normalization_amended (name tmpl expected : String) (isOC : Bool)
    (o : GradingOutcome) (raw typeName : String) :
    (evaluateAssertion (mkLLMCheckAssertion name tmpl expected isOC)
        (.grading o)).passed
      = pyStartsWith (runLLMCheck o) (pyUpper expected)
    ∧ runLLMCheck (.answered raw) = pyUpper (pyStrip raw)
    ∧ runLLMCheck .noCandidates = "[LLM_NO_CANDIDATES]"
    ∧ runLLMCheck (.exn typeName) = "[LLM_EXCEPTION: " ++ typeName ++ "]" := by
  exact ⟨rfl, rfl, rfl, rfl⟩

/-- **C4**.  For every evaluation run that produces a report,
`outcome_passed` is `True` iff at least one result in the report's details is
flagged `is_outcome_check` and all such results passed.  (In particular the
early error reports, whose details are empty, have `outcome_passed = False`.)
Proved over all replay runs of `evaluate_trace`: the running
`outcome_passed : Optional[bool]` fold — first outcome check seeds it, any
later failed outcome check forces `False`, `None` defaults to `False` — is
exactly this conjunction. -/
theorem c4_outcome_law (trace : List TraceStepDict) (asserts : List LLMCheckAssertion)
    (goal : String) (aO : Nat → TurnOracle) (gO : Nat → AssertionOracle)
    (maxTurns : Nat) :
    ((evaluateTrace trace asserts goal aO gO maxTurns).report.outcomePassed = true)
      ↔ ((∃ r ∈ (evaluateTrace trace asserts goal aO gO maxTurns).report.details,
            r.isOutcomeCheck = true)
         ∧ (∀ r ∈ (evaluateTrace trace asserts goal aO gO maxTurns).report.details,
            r.isOutcomeCheck = true → r.passed = true)) := by
  unfold evaluateTrace
  split
  · simp
  · simp only []
    split
    · simp
    · obtain ⟨new, h1, h2, h3, h4⟩ := assertionLoop_spec asserts gO none 0 0 []
      simp only [List.nil_append] at h1
      simp [h1, h2]

/-- **C5** (counterexample).  The claim quantifies over *every* run that
produces a report and demands `trajectory_quality = 1.0` when the details
list has zero trajectory checks.  The early error report of a run on the
empty golden trace has an empty details list (`k = 0`) but
`trajectory_quality = 0.0`, not `1.0`. -/
theorem c5_counterexample :
    ((evaluateTrace [] [] "goal" textOracle gOracleYes 15).report.details.countP
       fun r => !r.isOutcomeCheck) = 0
    ∧ (evaluateTrace [] [] "goal" textOracle gOracleYes 15).report.trajectoryQuality = 0
    ∧ (evaluateTrace [] [] "goal" textOracle gOracleYes 15).report.trajectoryQuality ≠ 1 := by
  refine ⟨by decide, by decide, by decide⟩

/-- **C5** (amended).  For every evaluation run whose report has
`error = None` (i.e. that reached the assertion-evaluation phase), the
report's `trajectory_quality` equals `p/k` where `k` counts the detail
results with `is_outcome_check = False` and `p` those of them that passed,
and equals `1.0` when `k = 0`.  The early error reports (which the original
claim also covered) instead carry `trajectory_quality = 0.0` with an empty
details list. -/
theorem c5_trajectory_law_amended (trace : List TraceStepDict)
    (asserts : List LLMCheckAssertion) (goal : String) (aO : Nat → TurnOracle)
    (gO : Nat → AssertionOracle) (maxTurns : Nat)
    (herr : (evaluateTrace trace asserts goal aO gO maxTurns).report.error = none) :
    (evaluateTrace trace asserts goal aO gO maxTurns).report.trajectoryQuality
      = (if 0 < ((evaluateTrace trace asserts goal aO gO maxTurns).report.details.countP
            fun r => !r.isOutcomeCheck)
         then (((evaluateTrace trace asserts goal aO gO maxTurns).report.details.countP
              fun r => !r.isOutcomeCheck && r.passed : Nat) : ℚ)
            / (((evaluateTrace trace asserts goal aO gO maxTurns).report.details.countP
              fun r => !r.isOutcomeCheck : Nat) : ℚ)
         else 1) := by
  unfold evaluateTrace at herr ⊢
  revert herr
  split
  · intro herr; simp at herr
  · simp only []
    split
    · intro herr; simp at herr
    · intro _
      obtain ⟨new, h1, h2, h3, h4⟩ := assertionLoop_spec asserts gO none 0 0 []
      simp only [List.nil_append] at h1
      simp [h1, h3, h4]

/-- **C5** (witness).  The amended trajectory law applied to a completed run
with one outcome check and two trajectory checks of which one passes. -/
theorem c5_trajectory_law_amended_witness :
    (evaluateTrace sampleTrace [outcomeAssertion, trajAssertionA, trajAssertionB]
        "Book the cheapest flight SFO to JFK" textOracle gOracleMixed 15).report.trajectoryQuality
      = (if 0 < ((evaluateTrace sampleTrace [outcomeAssertion, trajAssertionA, trajAssertionB]
            "Book the cheapest flight SFO to JFK" textOracle gOracleMixed 15).report.details.countP
            fun r => !r.isOutcomeCheck)
         then (((evaluateTrace sampleTrace [outcomeAssertion, trajAssertionA, trajAssertionB]
              "Book the cheapest flight SFO to JFK" textOracle gOracleMixed 15).report.details.countP
              fun r => !r.isOutcomeCheck && r.passed : Nat) : ℚ)
            / (((evaluateTrace sampleTrace [outcomeAssertion, trajAssertionA, trajAssertionB]
              "Book the cheapest flight SFO to JFK" textOracle gOracleMixed 15).report.details.countP
              fun r => !r.isOutcomeCheck : Nat) : ℚ)
         else 1) :=
  c5_trajectory_law_amended sampleTrace [outcomeAssertion, trajAssertionA, trajAssertionB]
    "Book the cheapest flight SFO to JFK" textOracle gOracleMixed 15 (by decide)

/-- **C8**.  In replay mode the conversation loop performs at most
`max_turns` agent interactions (the recorded turn list never exceeds
`max_turns`, default 15 in `evaluateTrace`), and when the golden trace runs
out of user steps before `max_turns` is reached the run terminates by trace
exhaustion — a Completed state — not by the turn guard: in the spec §8
scenario (`max_turns = 3`, trace with 2 user turns) the loop exits with cause
`traceExhausted` after exactly 2 turns and `max_turns_hit = False`; moreover a
`maxTurnsReached` exit happens only after exactly `max_turns` recorded
interactions, so a run that exhausts its trace earlier can never end in the
MaxTurnsHit state. -/
theorem c8_turn_bound_and_trace_exhaustion :
    (∀ (trace : List TraceStepDict) (asserts : List LLMCheckAssertion)
       (goal : String) (aO : Nat → TurnOracle) (gO : Nat → AssertionOracle)
       (maxTurns : Nat) (st : LoopState),
       (evaluateTrace trace asserts goal aO gO maxTurns).loopExit = some st →
       st.turnHistory.length ≤ maxTurns)
    ∧ ((evaluateTrace sampleTrace [] "trace exhaustion scenario" textOracle gOracleYes 3).loopExit.map
         fun st => (st.cause, st.turnHistory.length, maxTurnsHitFlag 3 st))
        = some (.traceExhausted, 2, false)
    ∧ (∀ (trace : List TraceStepDict) (asserts : List LLMCheckAssertion)
       (goal : String) (aO : Nat → TurnOracle) (gO : Nat → AssertionOracle)
       (maxTurns : Nat) (st : LoopState),
       (evaluateTrace trace asserts goal aO gO maxTurns).loopExit = some st →
       st.cause = .maxTurnsReached →
       st.turnHistory.length = maxTurns) := by
  refine ⟨?_, by decide, ?_⟩
  · intro trace asserts goal aO gO maxTurns st hst
    unfold evaluateTrace at hst
    revert hst
    split
    · intro hst; simp at hst
    · simp only []
      split <;> intro hst <;>
        (obtain rfl : _ = st := by simpa using hst) <;>
        simpa using runLoopAux_turnHistory_le trace aO maxTurns 0 0 _ [] {} [] 0 []
  · intro trace asserts goal aO gO maxTurns st hst hc
    unfold evaluateTrace at hst
    revert hst
    split
    · intro hst; simp at hst
    · simp only []
      split <;> intro hst <;>
        (obtain rfl : _ = st := by simpa using hst) <;>
        simpa using runLoopAux_maxTurns_cause trace aO maxTurns 0 0 _ [] {} [] 0 [] hc

/-- **C8** (witness).  The bound applied to the spec §8 scenario run, and the
exact-`max_turns` law applied to the same trace with `max_turns = 1`. -/
theorem c8_turn_bound_witness :
    (∃ st, (evaluateTrace sampleTrace [] "trace exhaustion scenario" textOracle
        gOracleYes 3).loopExit = some st ∧ st.turnHistory.length ≤ 3)
    ∧ (∃ st, (evaluateTrace sampleTrace [] "trace exhaustion scenario" textOracle
        gOracleYes 1).loopExit = some st ∧ st.cause = .maxTurnsReached
        ∧ st.turnHistory.length = 1) :=
  ⟨⟨_, rfl, c8_turn_bound_and_trace_exhaustion.1 sampleTrace []
      "trace exhaustion scenario" textOracle gOracleYes 3 _ rfl⟩,
   ⟨_, rfl, by decide,
    c8_turn_bound_and_trace_exhaustion.2.2 sampleTrace []
      "trace exhaustion scenario" textOracle gOracleYes 1 _ rfl (by decide)⟩⟩

/-- **C9**.  Replay is a pure lookup: the sequence of results produced by the
replay executor over any fixed sequence of agent tool calls is independent of
the mutable (evaluator-module) globals it threads, and the conversation
loop's executor log and `tool_calls` total are likewise independent of that
state — so two runs over the same golden trace and the same call sequence
yield identical per-call results and identical `tool_calls` counts. -/
theorem c9_replay_determinism :
    (∀ (trace : List TraceStepDict) (g₁ g₂ : EvalGlobals)
       (calls : List (String × JVal)),
       (runCalls trace g₁ calls).1 = (runCalls trace g₂ calls).1)
    ∧ (∀ (trace : List TraceStepDict) (aO : Nat → TurnOracle)
       (fuel turnIdx traceIdx : Nat) (ui : Option String) (hist : History)
       (th : List AgentTurnData) (total : Nat)
       (log : List ((String × JVal) × ExecOutcome)) (g₁ g₂ : EvalGlobals),
       (runLoopAux trace aO fuel turnIdx traceIdx ui hist g₁ th total log).execLog
         = (runLoopAux trace aO fuel turnIdx traceIdx ui hist g₂ th total log).execLog
       ∧ (runLoopAux trace aO fuel turnIdx traceIdx ui hist g₁ th total log).totalToolCalls
         = (runLoopAux trace aO fuel turnIdx traceIdx ui hist g₂ th total log).totalToolCalls) := by
  constructor
  · intro trace g₁ g₂ calls
    induction calls generalizing g₁ g₂ with
    | nil => rfl
    | cons c rest ih =>
      obtain ⟨n, a⟩ := c
      have hfst := toolExecutorReplay_fst_indep trace n a g₁ g₂
      rcases hr1 : toolExecutorReplay trace g₁ n a with ⟨out1, g1'⟩
      rcases hr2 : toolExecutorReplay trace g₂ n a with ⟨out2, g2'⟩
      rw [hr1, hr2] at hfst
      simp only [] at hfst
      subst hfst
      simp [runCalls, hr1, hr2, ih g1' g2']
  · intro trace aO fuel turnIdx traceIdx ui hist th total log g₁ g₂
    obtain ⟨_, _, h3, h4⟩ :=
      runLoopAux_evalG_indep trace aO fuel turnIdx traceIdx ui hist th total log g₁ g₂
    exact ⟨h4, h3⟩

/-- **C10**.  For every golden trace that is empty, whose first step is not a
`user` step, or whose first step's `text` is not a string, `evaluate_trace`
performs no agent turns and immediately returns the early report with
`outcome_passed = False`, `trajectory_quality = 0.0`, `tool_calls = 0`, empty
details and the error naming the missing/invalid initial user turn — the
initial input is read from position 0 only, never found by scanning past
non-user steps. -/
theorem c10_initial_user_turn_guard (trace : List TraceStepDict)
    (asserts : List LLMCheckAssertion) (goal : String) (aO : Nat → TurnOracle)
    (gO : Nat → AssertionOracle) (maxTurns : Nat)
    (h : trace = [] ∨ ∃ s rest, trace = s :: rest ∧
        (pyGet s.type? ≠ .str "user" ∨ ∀ txt : String, pyGet s.text? ≠ .str txt)) :
    evaluateTrace trace asserts goal aO gO maxTurns
      = ⟨⟨goal, false, 0, 0, [],
          some "Missing or invalid initial UserTurn in trace."⟩, none⟩ := by
  have h0 : initialUserInput trace = none := by
    rcases h with rfl | ⟨s, rest, rfl, hbad⟩
    · rfl
    · unfold initialUserInput
      rcases hbad with hty | htx
      · simp [hty]
      · by_cases hty2 : pyGet s.type? = .str "user"
        · rcases htxt : pyGet s.text? with _ | b | nn | s' | es | fs
          · simp [hty2, htxt]
          · simp [hty2, htxt]
          · simp [hty2, htxt]
          · exact absurd htxt (htx s')
          · simp [hty2, htxt]
          · simp [hty2, htxt]
        · simp [hty2]
  simp [evaluateTrace, h0]

/-- **C10** (witness).  A trace whose first step is an agent step (with a
valid user step right after it, which the code must not scan forward to)
yields exactly the early error report. -/
theorem c10_initial_user_turn_guard_witness :
    (lateUserTrace = [] ∨ ∃ s rest, lateUserTrace = s :: rest ∧
        (pyGet s.type? ≠ .str "user" ∨ ∀ txt : String, pyGet s.text? ≠ .str txt))
    ∧ evaluateTrace lateUserTrace [] "late user" textOracle gOracleYes 15
      = ⟨⟨"late user", false, 0, 0, [],
          some "Missing or invalid initial UserTurn in trace."⟩, none⟩ := by
  have hh : lateUserTrace = [] ∨ ∃ s rest, lateUserTrace = s :: rest ∧
      (pyGet s.type? ≠ .str "user" ∨ ∀ txt : String, pyGet s.text? ≠ .str txt) :=
    Or.inr ⟨agentStep "Welcome!", [userStep "hello"], rfl, Or.inl (by decide)⟩
  exact ⟨hh, c10_initial_user_turn_guard lateUserTrace [] "late user"
    textOracle gOracleYes 15 hh⟩

end FlightEval
